import Mathlib

/-!
Shallow embedding of `main.py`: a FastAPI service that translates a
natural-language question to SQL with an LLM, runs the SQL against MySQL,
and summarizes the result with a second LLM call.

External collaborators (the MySQL server and the Gemini LLM service) are
modelled as oracles collected in an `Env` record: each oracle is a function
from the arguments the Python code sends to `Except PyErr` of the value the
Python code reads back, so one `Env` fixes one possible behaviour of the
outside world and all functions of the embedding are pure in `Env`.

Python exceptions are modelled by `Except PyErr`; a `try/except` block
becomes a `match` on the embedded body.  Python values that flow through
the pipeline (JSON-decoded LLM replies, row dictionaries, the error
records `\x7b"error": ...\x7d`) are modelled by the inductive `PyVal`.

Observable effects that the specification talks about (connections opened
and closed, LLM invocations, invocations of the SQL executor, the question
string handed to the summarizer) are recorded in a `Trace` value returned
alongside each result.
-/

/-- Python exception values, by class, as far as this program distinguishes
them.  All of these derive from `Exception`, so a bare `except Exception`
catches every one of them; `except mysql.connector.Error` catches only
`mysqlErr`.  -/
inductive PyErr where
  | mysqlErr (msg : String)
  | jsonDecodeErr (msg : String)
  | typeErr (msg : String)
  | keyErr (key : String)
  | attrErr (msg : String)
  | exc (msg : String)

/-- Python `str(e)` for an exception: the message, except that `KeyError` renders
as the repr of the missing key (quoted). -/
def PyErr.text : PyErr → String
  | .mysqlErr m => m
  | .jsonDecodeErr m => m
  | .typeErr m => m
  | .keyErr k => "\x27" ++ k ++ "\x27"
  | .attrErr m => m
  | .exc m => m

/-- JSON-shaped Python values: everything that flows between the pipeline
stages (decoded LLM replies, result rows, error records).  `floatLit`
carries the raw token of a non-integral JSON number; no claim evaluates
such a value, it only travels. -/
inductive PyVal where
  | str (s : String)
  | int (n : Int)
  | bool (b : Bool)
  | none
  | floatLit (raw : String)
  | list (xs : List PyVal)
  | dict (kvs : List (String × PyVal))

/-- Observable effects of one call, in program order.  `opened`/`closed`
count MySQL connections, `translateCalls`/`summarizeCalls` count the two
kinds of LLM request, `queryCalls` counts invocations of the SQL executor
`query`, and `summarizerArg` records the question value last handed to
`build_answer`. -/
structure Trace where
  opened : Nat
  closed : Nat
  translateCalls : Nat
  summarizeCalls : Nat
  queryCalls : Nat
  summarizerArg : Option PyVal

/-- Sequential composition of traces (counts add; the later summarizer
argument, when present, wins). -/
def Trace.add (a b : Trace) : Trace :=
  ⟨a.opened + b.opened, a.closed + b.closed,
   a.translateCalls + b.translateCalls,
   a.summarizeCalls + b.summarizeCalls,
   a.queryCalls + b.queryCalls,
   match b.summarizerArg with
   | Option.some v => Option.some v
   | Option.none => a.summarizerArg⟩

/-! ## Python string and dict primitives

The embedding manipulates text through character lists (Python slicing and
`strip`/`upper`/`startswith` are per-code-point, which `List Char`
reproduces directly). -/

/-- Python string whitespace as `str.strip()` removes it, at ASCII: space,
tab, newline, vertical tab, form feed, carriage return, and the four
separator controls 0x1c-0x1f.  (Python also strips non-ASCII Unicode
spaces; none can occur in the texts this program strips.) -/
def pyIsSpace (c : Char) : Bool :=
  c.toNat == 32 || (9 ≤ c.toNat && c.toNat ≤ 13) || (28 ≤ c.toNat && c.toNat ≤ 31)

/-- Remove leading whitespace characters. -/
def dropSpaces : List Char → List Char
  | [] => []
  | c :: t => if pyIsSpace c then dropSpaces t else c :: t

/-- Python `s.strip()`: remove whitespace from both ends. -/
def pyStrip (s : String) : String :=
  String.mk ((dropSpaces (dropSpaces s.toList).reverse).reverse)

/-- ASCII uppercase of one character (Python `str.upper()` restricted to
ASCII; no non-ASCII letter reaches the one call site, a `SELECT` prefix
test). -/
def asciiUpperChar (c : Char) : Char :=
  if 97 ≤ c.toNat ∧ c.toNat ≤ 122 then Char.ofNat (c.toNat - 32) else c

/-- Python `s.upper()` at ASCII. -/
def pyUpper (s : String) : String :=
  String.mk (s.toList.map asciiUpperChar)

/-- Python `s.startswith(pre)`. -/
def pyStartsWith (s pre : String) : Bool :=
  pre.toList.isPrefixOf s.toList

/-- Python `s.endswith(suf)`. -/
def pyEndsWith (s suf : String) : Bool :=
  suf.toList.reverse.isPrefixOf s.toList.reverse

/-- Python `s[n:]` for a nonnegative `n`. -/
def pyDropLeft (s : String) (n : Nat) : String :=
  String.mk (s.toList.drop n)

/-- Python `s[:-n]` for `0 < n ≤ len(s)` (all the program uses). -/
def pyDropRight (s : String) (n : Nat) : String :=
  String.mk (s.toList.take (s.toList.length - n))

/-- Substring test on character lists: does `p` occur contiguously in `l`?
(Python `needle in haystack` for `str`.) -/
def subChars (p : List Char) : List Char → Bool
  | [] => p.isPrefixOf []
  | c :: t => p.isPrefixOf (c :: t) || subChars p t

/-- Python `needle in haystack` for strings: substring containment. -/
def strContains (haystack needle : String) : Bool :=
  subChars needle.toList haystack.toList

/-- First binding of `k` in a dict's entry list (Python dicts have unique
keys, so first and only). -/
def dictFind (kvs : List (String × PyVal)) (k : String) : Option PyVal :=
  match kvs with
  | [] => Option.none
  | (k2, v) :: t => if k2 == k then Option.some v else dictFind t k

/-- Python `d[k] = v` on an insertion-ordered dict: overwrite in place when
the key exists, append otherwise. -/
def pyDictSet (kvs : List (String × PyVal)) (k : String) (v : PyVal) :
    List (String × PyVal) :=
  if kvs.any (fun p => p.1 == k) then
    kvs.map (fun p => if p.1 == k then (k, v) else p)
  else kvs ++ [(k, v)]

/-- Python `k in v` for a string key `k`: key membership for dicts,
substring containment for strings, elementwise `==` for lists (a list
element equals the string `k` exactly when it is that string), and a
`TypeError` for non-container values. -/
def pyContains (v : PyVal) (k : String) : Except PyErr Bool :=
  match v with
  | .dict kvs => .ok (kvs.any (fun p => p.1 == k))
  | .str s => .ok (strContains s k)
  | .list xs =>
      .ok (xs.any (fun x => match x with
        | .str s => s == k
        | _ => false))
  | _ => .error (.typeErr "argument of type is not iterable")

/-- Python `v[k]` for a string key `k`: dict lookup raising `KeyError` when
absent; a `TypeError` on strings, lists and scalars (string and list
indices must be integers, scalars are not subscriptable). -/
def pySubscript (v : PyVal) (k : String) : Except PyErr PyVal :=
  match v with
  | .dict kvs =>
      match dictFind kvs k with
      | Option.some w => .ok w
      | Option.none => .error (.keyErr k)
  | .str _ => .error (.typeErr "string indices must be integers")
  -- (message as CPython 3.10 words it; later versions append the key type)
  | .list _ => .error (.typeErr "list indices must be integers")
  | _ => .error (.typeErr "object is not subscriptable")

/-- Python `d.get(k, default)`; only ever applied to dict values in the
program (on anything else `.get` would be an `AttributeError`, a case no
call site can reach because it follows a successful subscript). -/
def pyGetD (v : PyVal) (k : String) (dflt : PyVal) : PyVal :=
  match v with
  | .dict kvs =>
      match dictFind kvs k with
      | Option.some w => w
      | Option.none => dflt
  | _ => dflt

/-- Is this value Python `None`? (`x is None`.) -/
def isNone (v : PyVal) : Bool :=
  match v with
  | PyVal.none => true
  | _ => false

/-- Is this value a dict carrying an `"error"` key?
(`isinstance(result, dict) and "error" in result`.) -/
def isErrorDict (v : PyVal) : Bool :=
  match v with
  | .dict kvs => kvs.any (fun p => p.1 == "error")
  | _ => false

/-! ## Python `str()` of pipeline values (used by f-string interpolation)

Only the scalar cases are ever exercised by the pipeline on its normal
paths (every interpolated value there is a `str`); containers render in
Python repr style. -/

/-- Python `repr` of a string: single-quoted with backslash escapes
(approximated: quote, backslash, newline, tab, carriage return). -/
def pyReprStr (s : String) : String :=
  "\x27" ++ String.join (s.toList.map (fun c =>
    if c = '\\' then "\\\\"
    else if c = '\x27' then "\\\x27"
    else if c = '\n' then "\\n"
    else if c = '\t' then "\\t"
    else if c = '\r' then "\\r"
    else String.singleton c)) ++ "\x27"

/-- Python `repr(v)`: quoted strings, Python spellings for scalars,
bracketed element reprs for containers. -/
def pyReprVal : PyVal → String
  | .str s => pyReprStr s
  | .int n => toString n
  | .bool b => if b then "True" else "False"
  | PyVal.none => "None"
  | .floatLit raw => raw
  | .list xs =>
      "[" ++ String.intercalate ", " (xs.attach.map (fun x => pyReprVal x.1)) ++ "]"
  | .dict kvs =>
      "\x7b" ++ String.intercalate ", "
        (kvs.attach.map (fun p => pyReprStr p.1.1 ++ ": " ++ pyReprVal p.1.2))
        ++ "\x7d"
termination_by v => sizeOf v
decreasing_by
  · simp only [PyVal.list.sizeOf_spec]
    have := List.sizeOf_lt_of_mem x.2
    omega
  · simp only [PyVal.dict.sizeOf_spec]
    have h1 := List.sizeOf_lt_of_mem p.2
    obtain ⟨⟨a, b⟩, hp⟩ := p
    simp only [Prod.mk.sizeOf_spec] at h1 ⊢
    omega

/-- Python `str(v)` for a pipeline value: the string itself for a `str`,
`repr` for everything else (which is what `str` does on every other value
this program can interpolate). -/
def pyToText : PyVal → String
  | .str s => s
  | v => pyReprVal v

/-! ## `json.dumps(schema_info, indent=2)`

`get_schema` serializes a value of the fixed shape
`dict[str, list[\x7b"column_name": str, "data_type": str, "nullable": bool\x7d]]`,
so the serializer is embedded at that shape, reproducing the byte-for-byte
layout of `json.dumps(..., indent=2)` with its default `ensure_ascii`. -/

/-- One lowercase hexadecimal digit. -/
def hexDigitChar (n : Nat) : Char :=
  Char.ofNat (if n < 10 then 48 + n else 87 + n)

/-- Four lowercase hexadecimal digits, zero padded. -/
def hex4 (n : Nat) : String :=
  String.mk [hexDigitChar (n / 4096 % 16), hexDigitChar (n / 256 % 16),
             hexDigitChar (n / 16 % 16), hexDigitChar (n % 16)]

/-- JSON escaping of one character as `json.dumps` does it with the default
`ensure_ascii=True`: two-character escapes for the usual control
characters, `\uXXXX` (a surrogate pair above the BMP) for every other
character outside printable ASCII. -/
def jsonEscapeChar (c : Char) : String :=
  if c = '"' then "\\\""
  else if c = '\\' then "\\\\"
  else if c = '\n' then "\\n"
  else if c = '\t' then "\\t"
  else if c = '\r' then "\\r"
  else if c.toNat = 8 then "\\b"
  else if c.toNat = 12 then "\\f"
  else if c.toNat < 32 || c.toNat > 126 then
    if c.toNat < 65536 then "\\u" ++ hex4 c.toNat
    else "\\u" ++ hex4 (55296 + (c.toNat - 65536) / 1024)
         ++ "\\u" ++ hex4 (56320 + (c.toNat - 65536) % 1024)
  else String.singleton c

/-- A JSON string literal for `s`. -/
def jsonQuote (s : String) : String :=
  "\"" ++ String.join (s.toList.map jsonEscapeChar) ++ "\""

/-- One column entry as `get_schema` builds it:
`\x7b"column_name": col["Field"], "data_type": col["Type"],
"nullable": col["Null"] == "YES"\x7d`. -/
structure ColEntry where
  column_name : String
  data_type : String
  nullable : Bool

/-- One row of `DESCRIBE <table>` as the dictionary cursor returns it, with
the three fields the program reads (`Field`, `Type`, `Null`). -/
structure DescRow where
  colField : String
  colType : String
  colNull : String

/-- The column dictionary at nesting depth 3 of the indent-2 layout. -/
def dumpColEntry (c : ColEntry) : String :=
  "\x7b\n      \"column_name\": " ++ jsonQuote c.column_name
  ++ ",\n      \"data_type\": " ++ jsonQuote c.data_type
  ++ ",\n      \"nullable\": " ++ (if c.nullable then "true" else "false")
  ++ "\n    \x7d"

/-- A table's column list at nesting depth 2. -/
def dumpCols (cols : List ColEntry) : String :=
  match cols with
  | [] => "[]"
  | _ => "[\n    " ++ String.intercalate ",\n    " (cols.map dumpColEntry)
         ++ "\n  ]"

/-- The serializer `json.dumps(schema_info, indent=2)` at the schema's shape. -/
def dumpsSchema (info : List (String × List ColEntry)) : String :=
  match info with
  | [] => "\x7b\x7d"
  | _ => "\x7b\n  "
         ++ String.intercalate ",\n  "
              (info.map (fun p => jsonQuote p.1 ++ ": " ++ dumpCols p.2))
         ++ "\n\x7d"

/-- Python `d[k] = v` at the `schema_info` value type. -/
def schemaDictSet (d : List (String × List ColEntry)) (k : String)
    (v : List ColEntry) : List (String × List ColEntry) :=
  if d.any (fun p => p.1 == k) then
    d.map (fun p => if p.1 == k then (k, v) else p)
  else d ++ [(k, v)]

/-! ## The environment: one behaviour of MySQL and of the LLM service -/

/-- A result row as the dictionary cursor delivers it: column name to
value. -/
abbrev Row := List (String × PyVal)

/-- One fixed behaviour of the two external collaborators.  `connect` is
`mysql.connector.connect(**DB_CONFIG)`; `showTables` is the table names
`SHOW TABLES` lists (first value of each returned row); `describe` is
`DESCRIBE <table>`; `execSql` is `cursor.execute` on the value the pipeline
passes (with, for a SELECT, the rows a following `fetchall` yields);
`commit` is `conn.commit()`; `llmSql` is the translation model's
`generate_content_async(...).text` given the schema value embedded in the
prompt and the user question; `llmAnswer` is the summarization model's
reply given the query result and the question value embedded in the
prompt. -/
structure Env where
  connect : Except PyErr Unit
  showTables : Except PyErr (List String)
  describe : String → Except PyErr (List DescRow)
  execSql : PyVal → Except PyErr (List Row)
  commit : Except PyErr Unit
  llmSql : PyVal → String → Except PyErr String
  llmAnswer : PyVal → PyVal → Except PyErr String

/-- The error record `\x7b"error": str(e)\x7d`. -/
def errDict (e : PyErr) : PyVal :=
  .dict [("error", .str (PyErr.text e))]

/-- The `for table in tables:` loop of `get_schema`: set
`schema_info[table_name]` and fill it from `DESCRIBE`; the first database
error aborts the loop (the exception propagates to the handler). -/
def buildSchemaInfo (env : Env) :
    List String → List (String × List ColEntry) →
    Except PyErr (List (String × List ColEntry))
  | [], acc => .ok acc
  | t :: ts, acc =>
      match env.describe t with
      | .error e => .error e
      | .ok cols =>
          buildSchemaInfo env ts
            (schemaDictSet acc t
              (cols.map (fun c => ⟨c.colField, c.colType, c.colNull == "YES"⟩)))

/-- The function `get_schema()`: connect, list tables, describe each, close, and return
the schema serialized as a JSON string; any exception is caught and
returned as the error record instead.  The trace records that the
connection is closed only on the success path: the handler returns without
reaching `conn.close()`. -/
def get_schema (env : Env) : PyVal × Trace :=
  match env.connect with
  | .error e => (errDict e, ⟨0, 0, 0, 0, 0, Option.none⟩)
  | .ok _ =>
      match env.showTables with
      | .error e => (errDict e, ⟨1, 0, 0, 0, 0, Option.none⟩)
      | .ok tables =>
          match buildSchemaInfo env tables [] with
          | .error e => (errDict e, ⟨1, 0, 0, 0, 0, Option.none⟩)
          | .ok info => (.str (dumpsSchema info), ⟨1, 1, 0, 0, 0, Option.none⟩)

/-- The test `sql_query.strip().upper().startswith("SELECT")`; on a non-string
value `.strip` raises `AttributeError` (caught by the enclosing handler in
`query`). -/
def sqlIsSelect (v : PyVal) : Except PyErr Bool :=
  match v with
  | .str s => .ok (pyStartsWith (pyUpper (pyStrip s)) "SELECT")
  | _ => .error (.attrErr "object has no attribute strip")

/-- The function `query(sql_query)`: connect, execute, then fetch all rows for a
statement whose stripped uppercase text starts with `SELECT`, or commit
and return the fixed acknowledgement for anything else; both `except`
clauses (mysql errors and any other exception) return the error record.
As in `get_schema`, the handlers return without closing the connection. -/
def query (env : Env) (sql_query : PyVal) : PyVal × Trace :=
  match env.connect with
  | .error e => (errDict e, ⟨0, 0, 0, 0, 1, Option.none⟩)
  | .ok _ =>
      match env.execSql sql_query with
      | .error e => (errDict e, ⟨1, 0, 0, 0, 1, Option.none⟩)
      | .ok rows =>
          match sqlIsSelect sql_query with
          | .error e => (errDict e, ⟨1, 0, 0, 0, 1, Option.none⟩)
          | .ok true => (.list (rows.map PyVal.dict), ⟨1, 1, 0, 0, 1, Option.none⟩)
          | .ok false =>
              match env.commit with
              | .error e => (errDict e, ⟨1, 0, 0, 0, 1, Option.none⟩)
              | .ok _ =>
                  (.dict [("message", .str "Query executed successfully.")],
                   ⟨1, 1, 0, 0, 1, Option.none⟩)

/-! ## `json.loads`

A strict JSON reader over character lists, following the stdlib decoder:
objects, arrays, strings with the standard escapes, `true`/`false`/`null`,
and numbers by the decoder's greedy regex (integral numbers become Python
ints, others are kept as `floatLit` tokens).  Recursion is bounded by a
fuel parameter, as CPython's decoder is bounded by the recursion limit;
`jsonLoads` supplies more fuel than any input can consume. -/

/-- JSON insignificant whitespace (space, tab, newline, carriage return). -/
def jsonSkipWs : List Char → List Char
  | [] => []
  | c :: t =>
      if c = ' ' || c = '\t' || c = '\n' || c = '\r' then jsonSkipWs t
      else c :: t

/-- Value of one hexadecimal digit, if it is one. -/
def jsonHexVal (c : Char) : Option Nat :=
  if 48 ≤ c.toNat ∧ c.toNat ≤ 57 then Option.some (c.toNat - 48)
  else if 97 ≤ c.toNat ∧ c.toNat ≤ 102 then Option.some (c.toNat - 87)
  else if 65 ≤ c.toNat ∧ c.toNat ≤ 70 then Option.some (c.toNat - 55)
  else Option.none

/-- Body of a JSON string literal after the opening quote: accumulate
characters (reversed) until the closing quote, decoding the standard
escapes; a raw control character or a malformed escape is an error.
Surrogate pairs in `\uXXXX` escapes are not recombined. -/
def jsonParseStringAux : List Char → List Char → Except String (String × List Char)
  | _, [] => .error "Unterminated string"
  | acc, c :: t =>
      if c = '"' then .ok (String.mk acc.reverse, t)
      else if c = '\\' then
        match t with
        | [] => .error "Unterminated string"
        | e :: t2 =>
            if e = '"' then jsonParseStringAux ('"' :: acc) t2
            else if e = '\\' then jsonParseStringAux ('\\' :: acc) t2
            else if e = '/' then jsonParseStringAux ('/' :: acc) t2
            else if e = 'b' then jsonParseStringAux (Char.ofNat 8 :: acc) t2
            else if e = 'f' then jsonParseStringAux (Char.ofNat 12 :: acc) t2
            else if e = 'n' then jsonParseStringAux ('\n' :: acc) t2
            else if e = 'r' then jsonParseStringAux ('\r' :: acc) t2
            else if e = 't' then jsonParseStringAux ('\t' :: acc) t2
            else if e = 'u' then
              match t2 with
              | a :: b :: c2 :: d :: t3 =>
                  match jsonHexVal a, jsonHexVal b, jsonHexVal c2, jsonHexVal d with
                  | Option.some x, Option.some y, Option.some z, Option.some w =>
                      jsonParseStringAux
                        (Char.ofNat (x * 4096 + y * 256 + z * 16 + w) :: acc) t3
                  | _, _, _, _ => .error "Invalid uXXXX escape"
              | _ => .error "Invalid uXXXX escape"
            else .error "Invalid escape"
      else if c.toNat < 32 then .error "Invalid control character"
      else jsonParseStringAux (c :: acc) t

/-- Longest digit prefix and the remainder. -/
def spanDigits : List Char → List Char × List Char
  | [] => ([], [])
  | c :: t =>
      if c.isDigit then
        match spanDigits t with
        | (ds, r) => (c :: ds, r)
      else ([], c :: t)

/-- The `(\.\d+)` part of the number regex, if it matches here. -/
def matchFrac : List Char → Option (List Char × List Char)
  | '.' :: t =>
      match spanDigits t with
      | ([], _) => Option.none
      | (ds, r) => Option.some ('.' :: ds, r)
  | _ => Option.none

/-- The `([eE][-+]?\d+)` part of the number regex, if it matches here. -/
def matchExp : List Char → Option (List Char × List Char)
  | e :: t =>
      if e = 'e' ∨ e = 'E' then
        match (match t with
               | c :: t2 => if c = '+' ∨ c = '-' then ([c], t2) else (([] : List Char), t)
               | [] => (([] : List Char), ([] : List Char))) with
        | (sgn, t2) =>
            match spanDigits t2 with
            | ([], _) => Option.none
            | (ds, r) => Option.some (e :: (sgn ++ ds), r)
      else Option.none
  | [] => Option.none

/-- Decimal digits to a natural number. -/
def digitsToNat (acc : Nat) : List Char → Nat
  | [] => acc
  | c :: t => digitsToNat (acc * 10 + (c.toNat - 48)) t

/-- A JSON number by the decoder's greedy regex
`(-?(?:0|[1-9]\d*))(\.\d+)?([eE][-+]?\d+)?`: the longest match is taken
and anything after it is left in the remainder (so a leading zero ends the
integer part).  An integral match is a Python int; a match with a fraction
or exponent is kept as its raw token. -/
def parseNumber (l : List Char) : Except String (PyVal × List Char) :=
  match (match l with
         | '-' :: t => (true, t)
         | _ => (false, l)) with
  | (neg, l1) =>
      match spanDigits l1 with
      | ([], _) => .error "Expecting value"
      | (d :: ds, rest0) =>
          match (if d = '0' then ([d], ds ++ rest0) else (d :: ds, rest0)) with
          | (intDs, rest1) =>
              match (match matchFrac rest1 with
                     | Option.some (f, r) => (f, r)
                     | Option.none => (([] : List Char), rest1)) with
              | (frDs, rest2) =>
                  match (match matchExp rest2 with
                         | Option.some (e2, r) => (e2, r)
                         | Option.none => (([] : List Char), rest2)) with
                  | (exDs, rest3) =>
                      if frDs = [] ∧ exDs = [] then
                        let n : Int := Int.ofNat (digitsToNat 0 intDs)
                        .ok (.int (if neg then -n else n), rest1)
                      else
                        .ok (.floatLit (String.mk
                              ((if neg then ['-'] else []) ++ intDs ++ frDs ++ exDs)),
                             rest3)

/-- The decoder's pending work: a value to read, the members of an open
object (with the entries read so far), or the elements of an open array. -/
inductive ParseJob where
  | val (l : List Char)
  | objItems (l : List Char) (acc : List (String × PyVal))
  | arrItems (l : List Char) (acc : List PyVal)

/-- The recursive JSON reader, as one fuel-indexed function so that each
step is plain structural recursion (every recursive call consumes at least
one input character first, so the fuel `jsonLoads` supplies can never run
out).

`.val`: one JSON value at the head of the input, after insignificant
whitespace.  `.objItems`: key string, colon, value, then a comma and more
members or the closing brace; duplicate keys overwrite in place, as `dict`
building does.  `.arrItems`: value, then a comma and more elements or the
closing bracket. -/
def parseRun : Nat → ParseJob → Except String (PyVal × List Char)
  | 0, _ => .error "maximum recursion depth exceeded"
  | fuel + 1, .val l =>
      match jsonSkipWs l with
      | [] => .error "Expecting value"
      | c :: t =>
          if c = '"' then
            match jsonParseStringAux [] t with
            | .error m => .error m
            | .ok (s, r) => .ok (.str s, r)
          else if c = '\x7b' then
            match jsonSkipWs t with
            | '\x7d' :: r => .ok (.dict [], r)
            | _ => parseRun fuel (.objItems t [])
          else if c = '[' then
            match jsonSkipWs t with
            | ']' :: r => .ok (.list [], r)
            | _ => parseRun fuel (.arrItems t [])
          else
            let l2 := c :: t
            if "true".toList.isPrefixOf l2 then .ok (.bool true, l2.drop 4)
            else if "false".toList.isPrefixOf l2 then .ok (.bool false, l2.drop 5)
            else if "null".toList.isPrefixOf l2 then .ok (PyVal.none, l2.drop 4)
            else if "NaN".toList.isPrefixOf l2 then .ok (.floatLit "NaN", l2.drop 3)
            else if "Infinity".toList.isPrefixOf l2 then
              .ok (.floatLit "Infinity", l2.drop 8)
            else if "-Infinity".toList.isPrefixOf l2 then
              .ok (.floatLit "-Infinity", l2.drop 9)
            else parseNumber l2
  | fuel + 1, .objItems l acc =>
      match jsonSkipWs l with
      | '"' :: t =>
          match jsonParseStringAux [] t with
          | .error m => .error m
          | .ok (k, r1) =>
              match jsonSkipWs r1 with
              | ':' :: r2 =>
                  match parseRun fuel (.val r2) with
                  | .error m => .error m
                  | .ok (v, r3) =>
                      match jsonSkipWs r3 with
                      | ',' :: r4 => parseRun fuel (.objItems r4 (pyDictSet acc k v))
                      | '\x7d' :: r4 => .ok (.dict (pyDictSet acc k v), r4)
                      | _ => .error "Expecting delimiter"
              | _ => .error "Expecting colon delimiter"
      | _ => .error "Expecting property name enclosed in double quotes"
  | fuel + 1, .arrItems l acc =>
      match parseRun fuel (.val l) with
      | .error m => .error m
      | .ok (v, r1) =>
          match jsonSkipWs r1 with
          | ',' :: r2 => parseRun fuel (.arrItems r2 (acc ++ [v]))
          | ']' :: r2 => .ok (.list (acc ++ [v]), r2)
          | _ => .error "Expecting delimiter"

/-- The decoder `json.loads(s)`: one value, then nothing but whitespace, or a
`JSONDecodeError` (a `ValueError`, caught by `except Exception`). -/
def jsonLoads (s : String) : Except PyErr PyVal :=
  match parseRun (s.toList.length + 1) (.val s.toList) with
  | .error m => .error (.jsonDecodeErr m)
  | .ok (v, rest) =>
      match jsonSkipWs rest with
      | [] => .ok v
      | _ => .error (.jsonDecodeErr "Extra data")

/-! ## The pipeline around the LLM -/

/-- The fence stripping applied to the translation model's reply: drop a
leading ```json marker and then a trailing ``` marker, stripping
surrounding whitespace after each drop. -/
def stripFences (text : String) : String :=
  let t1 := if pyStartsWith text "```json" then pyStrip (pyDropLeft text 7) else text
  if pyEndsWith t1 "```" then pyStrip (pyDropRight t1 3) else t1

/-- The function `human_query_to_sql(human_query)`: fetch the schema; short-circuit if
`"error" in database_schema` (key membership when the schema call failed
and returned its error record, substring containment when it succeeded
and returned a JSON string — in the latter case the following
`database_schema["error"]` subscript of a `str` raises `TypeError`
outside any handler).  Otherwise invoke the translation model and decode
its reply, fences stripped; the `try` block converts any LLM or decode
failure into `\x7b"sql_query": None, "error": str(e)\x7d`, and a successful
decode is returned as-is. -/
def human_query_to_sql (env : Env) (human_query : String) :
    Except PyErr PyVal × Trace :=
  match get_schema env with
  | (database_schema, t0) =>
      match pyContains database_schema "error" with
      | .error e => (.error e, t0)
      | .ok true =>
          match pySubscript database_schema "error" with
          | .error e => (.error e, t0)
          | .ok v =>
              (.ok (.dict [("sql_query", PyVal.none), ("error", v)]), t0)
      | .ok false =>
          match env.llmSql database_schema human_query with
          | .error e =>
              (.ok (.dict [("sql_query", PyVal.none), ("error", .str (PyErr.text e))]),
               t0.add ⟨0, 0, 1, 0, 0, Option.none⟩)
          | .ok text =>
              match jsonLoads (stripFences text) with
              | .error e =>
                  (.ok (.dict [("sql_query", PyVal.none), ("error", .str (PyErr.text e))]),
                   t0.add ⟨0, 0, 1, 0, 0, Option.none⟩)
              | .ok v => (.ok v, t0.add ⟨0, 0, 1, 0, 0, Option.none⟩)

/-- The function `build_answer(result, human_query)`: short-circuit to the canned
Spanish database-error sentence when the result is an error record;
otherwise invoke the summarization model, converting any failure into the
canned apology embedding `str(e)`.  Total: every branch yields a string.
The trace records the question value the call received. -/
def build_answer (env : Env) (result : PyVal) (human_query : PyVal) :
    String × Trace :=
  if isErrorDict result then
    ("Lo siento, hubo un error al consultar la base de datos: "
       ++ pyToText (pyGetD result "error" (.str "")),
     ⟨0, 0, 0, 0, 0, Option.some human_query⟩)
  else
    match env.llmAnswer result human_query with
    | .ok s => (s, ⟨0, 0, 0, 1, 0, Option.some human_query⟩)
    | .error e =>
        ("Lo siento, no pude generar una respuesta. Error: " ++ PyErr.text e,
         ⟨0, 0, 0, 1, 0, Option.some human_query⟩)

/-- The response record `\x7b"answer": s\x7d`. -/
def answerDict (s : String) : PyVal :=
  .dict [("answer", .str s)]

/-- The function `human_query_endpoint(payload)`: translate, and report a translation
failure when the (unguarded) subscript `sql_response["sql_query"]` yields
`None`; execute, and report an execution failure when the result is an
error record; summarize with `sql_response.get("original_query",
payload.human_query)` as the question, and report a summarization failure
when the answer text is falsy.  The subscript raises `KeyError` when the
decoded LLM reply lacks the key and `TypeError` when that reply is not an
object; such exceptions, like the one out of `human_query_to_sql`, leave
the endpoint uncaught. -/
def human_query_endpoint (env : Env) (human_query : String) :
    Except PyErr PyVal × Trace :=
  match human_query_to_sql env human_query with
  | (.error e, t1) => (.error e, t1)
  | (.ok sql_response, t1) =>
      match pySubscript sql_response "sql_query" with
      | .error e => (.error e, t1)
      | .ok sq =>
          if isNone sq then
            (.ok (answerDict ("Falló la generación de la consulta SQL: "
               ++ pyToText (pyGetD sql_response "error" (.str "Error desconocido")))),
             t1)
          else
            match query env sq with
            | (result, t2) =>
                if isErrorDict result then
                  (.ok (answerDict ("Falló la consulta a la base de datos: "
                     ++ pyToText (pyGetD result "error" (.str "")))),
                   t1.add t2)
                else
                  match build_answer env result
                          (pyGetD sql_response "original_query" (.str human_query)) with
                  | (answer, t3) =>
                      if answer = "" then
                        (.ok (answerDict "Falló la generación de la respuesta"),
                         (t1.add t2).add t3)
                      else (.ok (answerDict answer), (t1.add t2).add t3)

/-! ## Concrete environments used to instantiate the theorems -/

/-- A fully healthy world: one table, a well-formed translation reply
carrying both `sql_query` and `original_query`, one result row, a
summarizer answer. -/
def envGood : Env :=
  ⟨.ok (), .ok ["ventas"],
   fun _ => .ok [⟨"total", "int", "NO"⟩],
   fun _ => .ok [[("total", PyVal.int 42)]],
   .ok (),
   fun _ _ => .ok "\x7b\"sql_query\": \"SELECT total FROM ventas;\", \"original_query\": \"hola\"\x7d",
   fun _ _ => .ok "Hay 42 ventas."⟩

/-- Healthy world whose translation model answers with a JSON object that
lacks the `sql_query` key. -/
def envNoKey : Env :=
  ⟨.ok (), .ok ["ventas"],
   fun _ => .ok [⟨"total", "int", "NO"⟩],
   fun _ => .ok [],
   .ok (),
   fun _ _ => .ok "\x7b\"x\": 1\x7d",
   fun _ _ => .ok "listo"⟩

/-- Healthy world whose translation model answers with text that is not
JSON at all. -/
def envParseErr : Env :=
  ⟨.ok (), .ok ["ventas"],
   fun _ => .ok [⟨"total", "int", "NO"⟩],
   fun _ => .ok [],
   .ok (),
   fun _ _ => .ok "no es json",
   fun _ _ => .ok "listo"⟩

/-- World where connecting to MySQL fails outright. -/
def envConnErr : Env :=
  ⟨.error (.mysqlErr "sin conexion"), .ok [],
   fun _ => .ok [], fun _ => .ok [], .ok (),
   fun _ _ => .ok "x", fun _ _ => .ok "x"⟩

/-- World where connecting succeeds but `SHOW TABLES` fails. -/
def envShowErr : Env :=
  ⟨.ok (), .error (.mysqlErr "fallo SHOW TABLES"),
   fun _ => .ok [], fun _ => .ok [], .ok (),
   fun _ _ => .ok "x", fun _ _ => .ok "x"⟩

/-- World whose database has a table literally named `error`. -/
def envTblError : Env :=
  ⟨.ok (), .ok ["error"],
   fun _ => .ok [⟨"id", "int", "NO"⟩],
   fun _ => .ok [],
   .ok (),
   fun _ _ => .ok "x", fun _ _ => .ok "x"⟩

/-- Healthy translation, but `cursor.execute` fails on the generated
statement. -/
def envExecErr : Env :=
  ⟨.ok (), .ok ["ventas"],
   fun _ => .ok [⟨"total", "int", "NO"⟩],
   fun _ => .error (.mysqlErr "sintaxis invalida"),
   .ok (),
   fun _ _ => .ok "\x7b\"sql_query\": \"SELEC oops;\"\x7d",
   fun _ _ => .ok "listo"⟩

/-- The function `get_schema` performs no LLM call, no executor call, and hands nothing
to the summarizer. -/
theorem get_schema_trace (env : Env) :
    (get_schema env).2.translateCalls = 0 ∧
    (get_schema env).2.summarizeCalls = 0 ∧
    (get_schema env).2.queryCalls = 0 ∧
    (get_schema env).2.summarizerArg = Option.none := by
  cases h1 : env.connect with
  | error e => simp [get_schema, h1]
  | ok u =>
    cases h2 : env.showTables with
    | error e => simp [get_schema, h1, h2]
    | ok tables =>
      cases h3 : buildSchemaInfo env tables [] with
      | error e => simp [get_schema, h1, h2, h3]
      | ok info => simp [get_schema, h1, h2, h3]

/-- A key whose membership test fails has no binding. -/
theorem dictFind_eq_none (kvs : List (String × PyVal)) (k : String)
    (h : kvs.any (fun p => p.1 == k) = false) :
    dictFind kvs k = Option.none := by
  induction kvs with
  | nil => rfl
  | cons hd tl ih =>
      obtain ⟨k2, v⟩ := hd
      simp only [List.any_cons, Bool.or_eq_false_iff] at h
      simpa [dictFind, h.1] using ih h.2

/-- The function `build_answer` records the question value it received, on every
branch. -/
theorem build_answer_arg (env : Env) (r q : PyVal) :
    (build_answer env r q).2.summarizerArg = Option.some q := by
  unfold build_answer
  by_cases h : isErrorDict r = true
  · simp [h]
  · simp only [Bool.not_eq_true] at h
    cases he : env.llmAnswer r q with
    | ok s => simp [h, he]
    | error e => simp [h, he]

/-- The executor's result is a row list, the fixed acknowledgement, or the
one-key error record. -/
theorem query_shape (env : Env) (v : PyVal) :
    (∃ rows, (query env v).1 = PyVal.list rows) ∨
    (query env v).1 = PyVal.dict [("message", PyVal.str "Query executed successfully.")] ∨
    (∃ m, (query env v).1 = PyVal.dict [("error", PyVal.str m)]) := by
  cases h1 : env.connect with
  | error e => exact Or.inr (Or.inr ⟨PyErr.text e, by simp [query, h1, errDict]⟩)
  | ok u =>
    cases h2 : env.execSql v with
    | error e => exact Or.inr (Or.inr ⟨PyErr.text e, by simp [query, h1, h2, errDict]⟩)
    | ok rows =>
      cases h3 : sqlIsSelect v with
      | error e => exact Or.inr (Or.inr ⟨PyErr.text e, by simp [query, h1, h2, h3, errDict]⟩)
      | ok b =>
        cases b with
        | true => exact Or.inl ⟨rows.map PyVal.dict, by simp [query, h1, h2, h3]⟩
        | false =>
          cases h4 : env.commit with
          | error e => exact Or.inr (Or.inr ⟨PyErr.text e, by simp [query, h1, h2, h3, h4, errDict]⟩)
          | ok u2 => exact Or.inr (Or.inl (by simp [query, h1, h2, h3, h4]))

/-- Translation short-circuits on the schema error record without looking
at the LLM. -/
theorem hqts_schema_err (env : Env) (q m : String) (t0 : Trace)
    (h : get_schema env = (PyVal.dict [("error", PyVal.str m)], t0)) :
    human_query_to_sql env q =
      (.ok (PyVal.dict [("sql_query", PyVal.none), ("error", PyVal.str m)]), t0) := by
  simp [human_query_to_sql, h, pyContains, pySubscript, dictFind]

/-- A clean schema string and an undecodable LLM reply produce the
error-shaped translation record. -/
theorem hqts_parse_err (env : Env) (q s text : String) (t0 : Trace) (e : PyErr)
    (h0 : get_schema env = (PyVal.str s, t0))
    (h1 : strContains s "error" = false)
    (h2 : env.llmSql (PyVal.str s) q = .ok text)
    (h3 : jsonLoads (stripFences text) = .error e) :
    human_query_to_sql env q =
      (.ok (PyVal.dict [("sql_query", PyVal.none), ("error", PyVal.str (PyErr.text e))]),
       t0.add ⟨0, 0, 1, 0, 0, Option.none⟩) := by
  simp [human_query_to_sql, h0, pyContains, h1, h2, h3]

/-- A clean schema string and a decodable LLM reply return the decoded
value unchanged. -/
theorem hqts_parse_ok (env : Env) (q s text : String) (t0 : Trace) (v : PyVal)
    (h0 : get_schema env = (PyVal.str s, t0))
    (h1 : strContains s "error" = false)
    (h2 : env.llmSql (PyVal.str s) q = .ok text)
    (h3 : jsonLoads (stripFences text) = .ok v) :
    human_query_to_sql env q = (.ok v, t0.add ⟨0, 0, 1, 0, 0, Option.none⟩) := by
  simp [human_query_to_sql, h0, pyContains, h1, h2, h3]

/-- A schema string that contains `"error"` as a substring sends the
translator into `database_schema["error"]` on a `str`: an uncaught
`TypeError`, before any LLM contact. -/
theorem hqts_schema_str_err (env : Env) (q s : String) (t0 : Trace)
    (h0 : get_schema env = (PyVal.str s, t0))
    (h1 : strContains s "error" = true) :
    human_query_to_sql env q =
      (.error (PyErr.typeErr "string indices must be integers"), t0) := by
  simp [human_query_to_sql, h0, pyContains, h1, pySubscript]

/-- When translation yields an object whose `sql_query` is `None`, the
endpoint answers with the translation-failure sentence and performs
nothing further. -/
theorem endpoint_sql_none (env : Env) (q : String)
    (kvs : List (String × PyVal)) (t1 : Trace)
    (h1 : human_query_to_sql env q = (.ok (PyVal.dict kvs), t1))
    (h2 : dictFind kvs "sql_query" = Option.some PyVal.none) :
    human_query_endpoint env q =
      (.ok (answerDict ("Falló la generación de la consulta SQL: "
         ++ pyToText (pyGetD (PyVal.dict kvs) "error" (PyVal.str "Error desconocido")))),
       t1) := by
  simp [human_query_endpoint, h1, pySubscript, h2, isNone]

/-- When translation yields an object without the `sql_query` key, the
endpoint raises `KeyError` out of its own frame. -/
theorem endpoint_keyerr (env : Env) (q : String)
    (kvs : List (String × PyVal)) (t1 : Trace)
    (h1 : human_query_to_sql env q = (.ok (PyVal.dict kvs), t1))
    (h2 : dictFind kvs "sql_query" = Option.none) :
    human_query_endpoint env q = (.error (PyErr.keyErr "sql_query"), t1) := by
  simp [human_query_endpoint, h1, pySubscript, h2]

/-- C2 (counterexample): the claim that every database operation closes
its connection on the error exit path is false on the code.  When the
connection opens but `SHOW TABLES` fails, `get_schema` returns the error
record from its `except` block having opened one connection and closed
none — `conn.close()` is only reached on the success path. -/
theorem c2_counterexample :
    (get_schema envShowErr).1 = PyVal.dict [("error", PyVal.str "fallo SHOW TABLES")] ∧
    (get_schema envShowErr).2.opened = 1 ∧
    (get_schema envShowErr).2.closed = 0 := by
  exact ⟨rfl, rfl, rfl⟩

/-- C2 (amended): each database operation (`get_schema` and `query`) opens
at most one connection.  On the success exit path exactly one connection
is opened and it is closed before returning; when the connection attempt
itself fails, none is opened; but on an error exit path after a
successful open, the operation returns its error record without closing
the connection. -/
theorem c2_connection_scoping (env : Env) (v : PyVal) :
    ((isErrorDict (get_schema env).1 = false →
        (get_schema env).2.opened = 1 ∧ (get_schema env).2.closed = 1) ∧
     ((∃ e, env.connect = .error e) →
        (get_schema env).2.opened = 0 ∧ (get_schema env).2.closed = 0) ∧
     (env.connect = .ok () → isErrorDict (get_schema env).1 = true →
        (get_schema env).2.opened = 1 ∧ (get_schema env).2.closed = 0)) ∧
    ((isErrorDict (query env v).1 = false →
        (query env v).2.opened = 1 ∧ (query env v).2.closed = 1) ∧
     ((∃ e, env.connect = .error e) →
        (query env v).2.opened = 0 ∧ (query env v).2.closed = 0) ∧
     (env.connect = .ok () → isErrorDict (query env v).1 = true →
        (query env v).2.opened = 1 ∧ (query env v).2.closed = 0)) := by
  constructor
  · cases h1 : env.connect with
    | error e => simp [get_schema, h1, errDict, isErrorDict]
    | ok u =>
      cases h2 : env.showTables with
      | error e => simp [get_schema, h1, h2, errDict, isErrorDict]
      | ok tables =>
        cases h3 : buildSchemaInfo env tables [] with
        | error e => simp [get_schema, h1, h2, h3, errDict, isErrorDict]
        | ok info => simp [get_schema, h1, h2, h3, isErrorDict]
  · cases h1 : env.connect with
    | error e => simp [query, h1, errDict, isErrorDict]
    | ok u =>
      cases h2 : env.execSql v with
      | error e => simp [query, h1, h2, errDict, isErrorDict]
      | ok rows =>
        cases h3 : sqlIsSelect v with
        | error e => simp [query, h1, h2, h3, errDict, isErrorDict]
        | ok b =>
          cases b with
          | true => simp [query, h1, h2, h3, isErrorDict]
          | false =>
            cases h4 : env.commit with
            | error e => simp [query, h1, h2, h3, h4, errDict, isErrorDict]
            | ok u2 => simp [query, h1, h2, h3, h4, isErrorDict]

/-- C2 (witness): on the healthy world's success path `get_schema` opens
one connection and closes it. -/
theorem c2_connection_scoping_witness :
    (get_schema envGood).2.opened = 1 ∧ (get_schema envGood).2.closed = 1 := by
  exact (c2_connection_scoping envGood (PyVal.str "SELECT 1;")).1.1 rfl

/-- C4: when schema introspection fails (`get_schema` returns its error
record), `human_query_to_sql` short-circuits to
`\x7b"sql_query": None, "error": <msg>\x7d` without any LLM call, and the
endpoint's answer text contains that schema error message. -/
theorem c4_schema_error_short_circuit (env : Env) (q msg : String) (t0 : Trace)
    (h : get_schema env = (PyVal.dict [("error", PyVal.str msg)], t0)) :
    human_query_to_sql env q =
      (.ok (PyVal.dict [("sql_query", PyVal.none), ("error", PyVal.str msg)]), t0) ∧
    (human_query_to_sql env q).2.translateCalls = 0 ∧
    (human_query_endpoint env q).1 =
      .ok (answerDict ("Falló la generación de la consulta SQL: " ++ msg)) ∧
    (human_query_endpoint env q).2.translateCalls = 0 ∧
    (∃ pre post, "Falló la generación de la consulta SQL: " ++ msg = pre ++ msg ++ post) := by
  have h1 := hqts_schema_err env q msg t0 h
  have ht : (get_schema env).2.translateCalls = 0 := (get_schema_trace env).1
  rw [h] at ht
  have h8 := endpoint_sql_none env q
    [("sql_query", PyVal.none), ("error", PyVal.str msg)] t0 h1 (by simp [dictFind])
  refine ⟨h1, ?_, ?_, ?_, "Falló la generación de la consulta SQL: ", "", ?_⟩
  · rw [h1]
    exact ht
  · rw [h8]
    simp [pyGetD, dictFind, pyToText]
  · rw [h8]
    exact ht
  · rw [String.append_empty]

/-- C4 (witness): with the connection refused, the endpoint's answer
embeds the connection error and the translation model is never
contacted. -/
theorem c4_schema_error_short_circuit_witness :
    (human_query_endpoint envConnErr "hola").1 =
      .ok (answerDict "Falló la generación de la consulta SQL: sin conexion") ∧
    (human_query_endpoint envConnErr "hola").2.translateCalls = 0 := by
  have h := c4_schema_error_short_circuit envConnErr "hola" "sin conexion"
    ⟨0, 0, 0, 0, 0, Option.none⟩ rfl
  exact ⟨h.2.2.1, h.2.2.2.1⟩

/-- C5: when the translation reply (fences stripped) fails to decode as
JSON, `human_query_to_sql` returns `\x7b"sql_query": None, "error": msg\x7d`,
and the endpoint answers with the translation-failure message without ever
invoking the Query Executor. -/
theorem c5_parse_failure_no_execution (env : Env) (q s text : String) (t0 : Trace)
    (e : PyErr)
    (h0 : get_schema env = (PyVal.str s, t0))
    (h1 : strContains s "error" = false)
    (h2 : env.llmSql (PyVal.str s) q = .ok text)
    (h3 : jsonLoads (stripFences text) = .error e) :
    human_query_to_sql env q =
      (.ok (PyVal.dict [("sql_query", PyVal.none), ("error", PyVal.str (PyErr.text e))]),
       t0.add ⟨0, 0, 1, 0, 0, Option.none⟩) ∧
    (human_query_endpoint env q).1 =
      .ok (answerDict ("Falló la generación de la consulta SQL: " ++ PyErr.text e)) ∧
    (human_query_endpoint env q).2.queryCalls = 0 := by
  have h4 := hqts_parse_err env q s text t0 e h0 h1 h2 h3
  have ht : (get_schema env).2.queryCalls = 0 := (get_schema_trace env).2.2.1
  rw [h0] at ht
  have h8 := endpoint_sql_none env q
    [("sql_query", PyVal.none), ("error", PyVal.str (PyErr.text e))] _ h4 (by simp [dictFind])
  have ht2 : t0.queryCalls = 0 := ht
  refine ⟨h4, ?_, ?_⟩
  · rw [h8]
    simp [pyGetD, dictFind, pyToText]
  · rw [h8]
    simp [Trace.add, ht2]

/-- C5 (witness): a non-JSON reply produces the decode-failure answer with
the executor untouched. -/
theorem c5_parse_failure_no_execution_witness :
    (human_query_endpoint envParseErr "hola").1 =
      .ok (answerDict "Falló la generación de la consulta SQL: Expecting value") ∧
    (human_query_endpoint envParseErr "hola").2.queryCalls = 0 := by
  have h := c5_parse_failure_no_execution envParseErr "hola" _ "no es json" _
    (PyErr.jsonDecodeErr "Expecting value") rfl rfl rfl rfl
  exact ⟨h.2.1, h.2.2⟩

/-- C6: the Query Executor routes by textual prefix: a statement whose
stripped text starts with `SELECT` case-insensitively takes the read path
(all rows fetched), every other statement takes the write path (execute,
commit, fixed acknowledgement). -/
theorem c6_select_prefix_routing (env : Env) (sql : String) (rows : List Row)
    (hc : env.connect = .ok ())
    (he : env.execSql (PyVal.str sql) = .ok rows) :
    (pyStartsWith (pyUpper (pyStrip sql)) "SELECT" = true →
       query env (PyVal.str sql) =
         (.list (rows.map PyVal.dict), ⟨1, 1, 0, 0, 1, Option.none⟩)) ∧
    (pyStartsWith (pyUpper (pyStrip sql)) "SELECT" = false →
       env.commit = .ok () →
       query env (PyVal.str sql) =
         (.dict [("message", PyVal.str "Query executed successfully.")],
          ⟨1, 1, 0, 0, 1, Option.none⟩)) := by
  constructor
  · intro hsel
    simp [query, hc, he, sqlIsSelect, hsel]
  · intro hsel hcm
    simp [query, hc, he, sqlIsSelect, hsel, hcm]

/-- C6 (witness): a lowercase, whitespace-led SELECT reads rows; an INSERT
commits and returns the acknowledgement. -/
theorem c6_select_prefix_routing_witness :
    query envGood (PyVal.str "  select total from ventas;") =
      (.list [PyVal.dict [("total", PyVal.int 42)]], ⟨1, 1, 0, 0, 1, Option.none⟩) ∧
    query envGood (PyVal.str "INSERT INTO ventas (total) VALUES (1);") =
      (.dict [("message", PyVal.str "Query executed successfully.")],
       ⟨1, 1, 0, 0, 1, Option.none⟩) :=
  ⟨(c6_select_prefix_routing envGood "  select total from ventas;"
      [[("total", PyVal.int 42)]] rfl rfl).1 rfl,
   (c6_select_prefix_routing envGood "INSERT INTO ventas (total) VALUES (1);"
      [[("total", PyVal.int 42)]] rfl rfl).2 rfl rfl⟩

/-- C7: `query` never raises past its own boundary: its result is always a
row list, the fixed acknowledgement, or an `\x7b"error": message\x7d` record,
and in particular a database-level execution error is caught and returned
as that record. -/
theorem c7_query_never_raises (env : Env) (v : PyVal) :
    ((∃ rows, (query env v).1 = PyVal.list rows) ∨
     (query env v).1 = PyVal.dict [("message", PyVal.str "Query executed successfully.")] ∨
     (∃ m, (query env v).1 = PyVal.dict [("error", PyVal.str m)])) ∧
    (∀ e, env.connect = .ok () → env.execSql v = .error e →
       query env v =
         (PyVal.dict [("error", PyVal.str (PyErr.text e))], ⟨1, 0, 0, 0, 1, Option.none⟩)) := by
  refine ⟨query_shape env v, ?_⟩
  intro e hc he
  simp [query, hc, he, errDict]

/-- C7 (witness): a syntax error from MySQL comes back as the error
record. -/
theorem c7_query_never_raises_witness :
    query envExecErr (PyVal.str "SELEC oops;") =
      (PyVal.dict [("error", PyVal.str "sintaxis invalida")], ⟨1, 0, 0, 0, 1, Option.none⟩) :=
  (c7_query_never_raises envExecErr (PyVal.str "SELEC oops;")).2
    (PyErr.mysqlErr "sintaxis invalida") rfl rfl

/-- C8: on success `get_schema` returns a JSON string, the translator's
`"error" in database_schema` test is then substring containment on that
string, and when the serialized text does contain `"error"` the subsequent
`database_schema["error"]` subscript of a `str` raises an uncaught
`TypeError` instead of proceeding to translation. -/
theorem c8_schema_substring_typeerror (env : Env) (q s : String) (t0 : Trace)
    (h0 : get_schema env = (PyVal.str s, t0))
    (h1 : strContains s "error" = true) :
    pyContains (PyVal.str s) "error" = .ok (strContains s "error") ∧
    human_query_to_sql env q =
      (.error (PyErr.typeErr "string indices must be integers"), t0) ∧
    (human_query_endpoint env q).1 =
      .error (PyErr.typeErr "string indices must be integers") ∧
    (human_query_endpoint env q).2.translateCalls = 0 := by
  have h2 := hqts_schema_str_err env q s t0 h0 h1
  have ht : (get_schema env).2.translateCalls = 0 := (get_schema_trace env).1
  rw [h0] at ht
  refine ⟨rfl, h2, ?_, ?_⟩
  · simp [human_query_endpoint, h2]
  · simp only [human_query_endpoint, h2]
    exact ht

/-- C8 (witness): a database with a table named `error` makes the endpoint
raise `TypeError` with no LLM contact. -/
theorem c8_schema_substring_typeerror_witness :
    (human_query_endpoint envTblError "hola").1 =
      .error (PyErr.typeErr "string indices must be integers") ∧
    (human_query_endpoint envTblError "hola").2.translateCalls = 0 := by
  have h := c8_schema_substring_typeerror envTblError "hola" _ _ rfl rfl
  exact ⟨h.2.2.1, h.2.2.2⟩

/-- C9: `human_query_to_sql` returns the decoded LLM object unchanged, and
the endpoint's unguarded `sql_response["sql_query"]` subscript raises an
uncaught `KeyError` whenever that object lacks the `sql_query` key. -/
theorem c9_missing_key_keyerror (env : Env) (q s text : String) (t0 : Trace)
    (kvs : List (String × PyVal))
    (h0 : get_schema env = (PyVal.str s, t0))
    (h1 : strContains s "error" = false)
    (h2 : env.llmSql (PyVal.str s) q = .ok text)
    (h3 : jsonLoads (stripFences text) = .ok (PyVal.dict kvs))
    (h4 : kvs.any (fun p => p.1 == "sql_query") = false) :
    human_query_to_sql env q =
      (.ok (PyVal.dict kvs), t0.add ⟨0, 0, 1, 0, 0, Option.none⟩) ∧
    human_query_endpoint env q =
      (.error (PyErr.keyErr "sql_query"), t0.add ⟨0, 0, 1, 0, 0, Option.none⟩) := by
  have h5 := hqts_parse_ok env q s text t0 (PyVal.dict kvs) h0 h1 h2 h3
  exact ⟨h5, endpoint_keyerr env q kvs _ h5 (dictFind_eq_none kvs "sql_query" h4)⟩

/-- C9 (witness): the reply `\x7b"x": 1\x7d` drives the endpoint into
`KeyError` on `sql_query`. -/
theorem c9_missing_key_keyerror_witness :
    human_query_endpoint envNoKey "hola" =
      (.error (PyErr.keyErr "sql_query"), ⟨1, 1, 1, 0, 0, Option.none⟩) := by
  have h := c9_missing_key_keyerror envNoKey "hola" _ "\x7b\"x\": 1\x7d" _
    [("x", PyVal.int 1)] rfl rfl rfl rfl rfl
  exact h.2

/-- C10: when the translation result has a usable `sql_query` and the
execution result carries no error, the question value handed to the
summarizer is the LLM-provided `original_query` when that key is present,
and the raw incoming `payload.human_query` when it is absent. -/
theorem c10_original_query_choice (env : Env) (q : String)
    (kvs : List (String × PyVal)) (t1 : Trace) (sq : PyVal)
    (h1 : human_query_to_sql env q = (.ok (PyVal.dict kvs), t1))
    (h2 : dictFind kvs "sql_query" = Option.some sq)
    (h3 : isNone sq = false)
    (h4 : isErrorDict (query env sq).1 = false) :
    (dictFind kvs "original_query" = Option.none →
       (human_query_endpoint env q).2.summarizerArg = Option.some (PyVal.str q)) ∧
    (∀ v, dictFind kvs "original_query" = Option.some v →
       (human_query_endpoint env q).2.summarizerArg = Option.some v) := by
  rcases hq : query env sq with ⟨result, t2⟩
  have h4' : isErrorDict result = false := by
    rw [hq] at h4
    exact h4
  constructor
  · intro h5
    have hx : pyGetD (PyVal.dict kvs) "original_query" (PyVal.str q) = PyVal.str q := by
      simp [pyGetD, h5]
    by_cases ha : (build_answer env result (PyVal.str q)).1 = "" <;>
      simp [human_query_endpoint, h1, pySubscript, h2, h3, hq, h4', hx, ha,
        Trace.add, build_answer_arg]
  · intro v h5
    have hx : pyGetD (PyVal.dict kvs) "original_query" (PyVal.str q) = v := by
      simp [pyGetD, h5]
    by_cases ha : (build_answer env result v).1 = "" <;>
      simp [human_query_endpoint, h1, pySubscript, h2, h3, hq, h4', hx, ha,
        Trace.add, build_answer_arg]

/-- C10 (witness): in the healthy world the summarizer receives the
LLM-provided `original_query` value. -/
theorem c10_original_query_choice_witness :
    (human_query_endpoint envGood "pregunta").2.summarizerArg =
      Option.some (PyVal.str "hola") := by
  have h := c10_original_query_choice envGood "pregunta"
    [("sql_query", PyVal.str "SELECT total FROM ventas;"),
     ("original_query", PyVal.str "hola")]
    ⟨1, 1, 1, 0, 0, Option.none⟩ (PyVal.str "SELECT total FROM ventas;")
    rfl rfl rfl rfl
  exact h.2 (PyVal.str "hola") rfl
